import Mathlib

/-!
Verification of the product-normalization core of the super-rifas backend
(`src/index.js`).  The core consists of:

  * `procesarProductos` — converts a raw spreadsheet table into a list of
    normalized product records (dropping the header row and blank-name rows);
  * `generateProductId` — derives a slug identifier from a product name;
  * `validateProducto` — advisory completeness check on a product;
  * the statistics aggregation of the `GET /api/stats` handler (`summarize`);
  * the lookup of the `GET /api/productos/:id` handler (`findById`).

Modelling conventions for the JavaScript source:

  * A spreadsheet cell is a `String`; a row is a `List String` (array
    destructuring past the end of a row yields `undefined`, modelled as
    `Option.none` from `List.get?`).  The raw table is `Option (List Row)`
    since `response.data.values` may be absent.
  * JS truthiness of a cell (`undefined`/`''` falsy) is `truthyCell`.
  * `String.prototype.trim` and the regex class `\s` use the JS whitespace
    set, modelled by `isJsWs`.
  * `toLowerCase` is modelled per-character via `Char.toLower`.  The two can
    differ on exotic Unicode (multi-character lowerings), but every character
    surviving the subsequent `[^a-z0-9\s]` strip is treated identically by
    both, which is all the theorems below rely on.
  * `new Date().toISOString()` is an ambient effect; it is passed in as an
    explicit `now : String` parameter and stored verbatim.
-/

/-- The JS whitespace set recognised by `\s` and `String.prototype.trim`:
TAB, LF, VT, FF, CR, SP, NBSP, OGHAM SP, U+2000–U+200A, LS, PS, NNBSP,
MMSP, IDEOGRAPHIC SP, and the BOM. -/
def isJsWs (c : Char) : Bool :=
  c.val == 0x09 || c.val == 0x0a || c.val == 0x0b || c.val == 0x0c ||
  c.val == 0x0d || c.val == 0x20 || c.val == 0xa0 || c.val == 0x1680 ||
  (0x2000 ≤ c.val && c.val ≤ 0x200a) ||
  c.val == 0x2028 || c.val == 0x2029 || c.val == 0x202f || c.val == 0x205f ||
  c.val == 0x3000 || c.val == 0xfeff

/-- JS `String.prototype.trim`: strip leading and trailing JS whitespace. -/
def jsTrim (s : String) : String :=
  String.mk (((s.data.dropWhile isJsWs).reverse.dropWhile isJsWs).reverse)

/-- JS truthiness of an optional string cell: `undefined` and `''` are falsy. -/
def truthyCell : Option String → Bool
  | none => false
  | some s => !(s == "")

/-- Cell text coercion `x ? x.toString() : ...`: the text of a present cell,
`""` when the cell is absent (used only where the source has already checked
truthiness or supplies the `''` default). -/
def cellText : Option String → String
  | none => ""
  | some s => s

/-- ASCII digit, the JS regex class `\d`. -/
def isDigitC (c : Char) : Bool := '0' ≤ c && c ≤ '9'

/-- Case-insensitive character comparison used by the `/i` regex flag
(the pattern letters involved are ASCII). -/
def ciEq (a b : Char) : Bool := a.toLower == b.toLower

/-- Match a literal (case-insensitively) at the front of the input, returning
the rest of the input on success. -/
def matchLitCI : List Char → List Char → Option (List Char)
  | [], l => some l
  | _ :: _, [] => none
  | p :: ps, c :: cs => if ciEq p c then matchLitCI ps cs else none

/-- Match `\s+` at the front of the input.  The regex engine's greedy match
with backtracking is equivalent to maximal munch here because in the source
pattern every `\s+` is followed by a token (`\d` or `a`) disjoint from `\s`. -/
def matchWs1 : List Char → Option (List Char)
  | [] => none
  | c :: cs => if isJsWs c then some (cs.dropWhile isJsWs) else none

/-- Match `\d{2}\/\d{2}\/\d{4}` at the front of the input, returning the ten
matched characters and the rest. -/
def matchDate : List Char → Option (List Char × List Char)
  | d1 :: d2 :: s1 :: d3 :: d4 :: s2 :: y1 :: y2 :: y3 :: y4 :: rest =>
    if isDigitC d1 && isDigitC d2 && s1 == '/' && isDigitC d3 && isDigitC d4 &&
       s2 == '/' && isDigitC y1 && isDigitC y2 && isDigitC y3 && isDigitC y4
    then some ([d1, d2, s1, d3, d4, s2, y1, y2, y3, y4], rest)
    else none
  | _ => none

/-- Attempt the pattern `del\s+(\d{2}\/\d{2}\/\d{4})\s+al\s+(\d{2}\/\d{2}\/\d{4})`
(flag `i`) at the current position, returning the two capture groups. -/
def matchVigAt (l : List Char) : Option (String × String) := do
  let l ← matchLitCI ['d', 'e', 'l'] l
  let l ← matchWs1 l
  let (date1, l) ← matchDate l
  let l ← matchWs1 l
  let l ← matchLitCI ['a', 'l'] l
  let l ← matchWs1 l
  let (date2, _) ← matchDate l
  pure (String.mk date1, String.mk date2)

/-- Scan of `String.prototype.match`: try the pattern at each successive
start position, returning the captures of the leftmost match. -/
def scanVig : List Char → Option (String × String)
  | [] => none
  | c :: rest =>
    match matchVigAt (c :: rest) with
    | some r => some r
    | none => scanVig rest

/-- Embedding of
`vigenciaStr.match(/del\s+(\d{2}\/\d{2}\/\d{4})\s+al\s+(\d{2}\/\d{2}\/\d{4})/i)`,
reduced to the two capture groups (the source only reads `fechaMatch[1]` and
`fechaMatch[2]`). -/
def matchVigencia (s : String) : Option (String × String) := scanVig s.data

/-- Worker for `collapseWs`: the flag records whether the previous character
was whitespace (i.e. whether we are inside a run whose hyphen has already been
emitted). -/
def collapseWsAux : Bool → List Char → List Char
  | _, [] => []
  | inRun, c :: cs =>
    if isJsWs c then (if inRun then [] else ['-']) ++ collapseWsAux true cs
    else c :: collapseWsAux false cs

/-- Collapse of `.replace(/\s+/g, '-')`: every maximal whitespace run becomes
a single hyphen. -/
def collapseWs (l : List Char) : List Char := collapseWsAux false l

/-- Slug generator `generateProductId` (src/index.js:108-113): lower-case, strip every
character outside `[a-z0-9\s]`, turn each whitespace run into `-`, and keep
the first 50 characters. -/
def generateProductId (nombre : String) : String :=
  let lowered := nombre.data.map Char.toLower
  let stripped := lowered.filter fun c => ('a' ≤ c && c ≤ 'z') || isDigitC c || isJsWs c
  String.mk ((collapseWs stripped).take 50)

/-- A normalized product record as built by `procesarProductos`
(src/index.js:94-104). -/
structure Producto where
  nombre : String
  vigenciaCompleta : String
  fechaInicio : String
  fechaFin : String
  compraMinima : String
  imagen : String
  id : String
  fechaActualizacion : String
deriving Repr, DecidableEq

/-- The row-mapping closure inside `procesarProductos` (src/index.js:73-105):
build a product from one raw row, or `none` for a row whose name cell is
missing or blank after trimming (the source returns `null` there and filters
the nulls afterwards). -/
def procesarFila (now : String) (row : List String) : Option Producto :=
  let nombreProducto := row[0]?
  let vigencia := row[1]?
  let compraMinima := row[2]?
  let imagen := row[3]?
  if !(truthyCell nombreProducto) || jsTrim (cellText nombreProducto) == "" then
    none
  else
    let fechas :=
      if truthyCell vigencia then matchVigencia (cellText vigencia) else none
    some {
      nombre := jsTrim (cellText nombreProducto)
      vigenciaCompleta := if truthyCell vigencia then cellText vigencia else ""
      fechaInicio := (fechas.map Prod.fst).getD ""
      fechaFin := (fechas.map Prod.snd).getD ""
      compraMinima := if truthyCell compraMinima then cellText compraMinima else ""
      imagen := if truthyCell imagen then jsTrim (cellText imagen) else ""
      id := generateProductId (cellText nombreProducto)
      fechaActualizacion := now }

/-- Normalization pass `procesarProductos` (src/index.js:65-106): absent or ≤1-row tables give
`[]`; otherwise drop the header row, map each row to a product-or-null, and
keep the non-null results. -/
def procesarProductos (now : String) (rawData : Option (List (List String))) :
    List Producto :=
  match rawData with
  | none => []
  | some l =>
    if l.length ≤ 1 then []
    else ((l.drop 1).map (procesarFila now)).filterMap id

/-- Result of `validateProducto`. -/
structure ValidationResult where
  isValid : Bool
  errors : List String
deriving Repr, DecidableEq

/-- Validator `validateProducto` (src/index.js:115-126): check the three required fields
independently in order (name, image, minPurchase), collecting one fixed reason
string per empty field; valid iff no reasons. -/
def validateProducto (p : Producto) : ValidationResult :=
  let errors :=
    (if p.nombre == "" then ["Nombre requerido"] else []) ++
    (if p.imagen == "" then ["Imagen requerida"] else []) ++
    (if p.compraMinima == "" then ["Compra mínima requerida"] else [])
  { isValid := errors.length == 0, errors := errors }

/-- The statistics record assembled by the `GET /api/stats` handler
(src/index.js:248-260). -/
structure Stats where
  totalProductos : Nat
  productosActivos : Nat
  conImagen : Nat
  sinImagen : Nat
  conVigencia : Nat
deriving Repr, DecidableEq

/-- The aggregation of the `GET /api/stats` handler (src/index.js:248-260):
counts over the freshly normalized collection. -/
def summarize (productos : List Producto) : Stats :=
  { totalProductos := productos.length
    productosActivos := productos.length
    conImagen := (productos.filter fun p => !(p.imagen == "")).length
    sinImagen := (productos.filter fun p => p.imagen == "").length
    conVigencia := (productos.filter fun p => !(p.vigenciaCompleta == "")).length }

/-- The lookup of the `GET /api/productos/:id` handler (src/index.js:213-221):
`productos.find(p => p.id === id)`, with `undefined` (→ 404) as `none`. -/
def findById (productos : List Producto) (id : String) : Option Producto :=
  productos.find? fun p => p.id == id

/-- The row-dropping condition of `procesarFila`: the name cell is missing or
blank after trimming (the source's `!nombreProducto || trim === ''`; a
present-but-empty cell also trims to the empty string). -/
def blankName (row : List String) : Bool :=
  match row[0]? with
  | none => true
  | some nm => jsTrim nm == ""

theorem jsTrim_empty : jsTrim "" = "" := rfl

theorem procesarFila_eq_none_iff (now : String) (row : List String) :
    procesarFila now row = none ↔ blankName row = true := by
  unfold procesarFila blankName
  cases h0 : row[0]? with
  | none => simp [truthyCell, cellText]
  | some nm =>
    by_cases hnm : nm = ""
    · subst hnm
      simp [truthyCell, cellText, jsTrim_empty]
    · simp [truthyCell, cellText, hnm]

theorem procesarFila_some_eq (now : String) (row : List String) (nm : String)
    (h0 : row[0]? = some nm) (hnb : jsTrim nm ≠ "") :
    procesarFila now row = some {
      nombre := jsTrim nm
      vigenciaCompleta := if truthyCell (row[1]?) then cellText (row[1]?) else ""
      fechaInicio := (((if truthyCell (row[1]?) then
        matchVigencia (cellText (row[1]?)) else none).map Prod.fst).getD "")
      fechaFin := (((if truthyCell (row[1]?) then
        matchVigencia (cellText (row[1]?)) else none).map Prod.snd).getD "")
      compraMinima := if truthyCell (row[2]?) then cellText (row[2]?) else ""
      imagen := if truthyCell (row[3]?) then jsTrim (cellText (row[3]?)) else ""
      id := generateProductId nm
      fechaActualizacion := now } := by
  have hne : nm ≠ "" := by
    intro hn
    rw [hn] at hnb
    exact hnb jsTrim_empty
  simp only [procesarFila, h0]
  simp [truthyCell, cellText, hnb, hne]

theorem procesarFila_fields (now : String) (row : List String) (p : Producto)
    (h : procesarFila now row = some p) :
    ∃ nm, row[0]? = some nm ∧ jsTrim nm ≠ "" ∧
      p.nombre = jsTrim nm ∧
      p.id = generateProductId nm ∧
      p.vigenciaCompleta = (if truthyCell (row[1]?) then cellText (row[1]?) else "") ∧
      p.fechaInicio = (((if truthyCell (row[1]?) then
        matchVigencia (cellText (row[1]?)) else none).map Prod.fst).getD "") ∧
      p.fechaFin = (((if truthyCell (row[1]?) then
        matchVigencia (cellText (row[1]?)) else none).map Prod.snd).getD "") ∧
      p.compraMinima = (if truthyCell (row[2]?) then cellText (row[2]?) else "") ∧
      p.imagen = (if truthyCell (row[3]?) then jsTrim (cellText (row[3]?)) else "") ∧
      p.fechaActualizacion = now := by
  cases h0 : row[0]? with
  | none =>
    have hb : blankName row = true := by simp [blankName, h0]
    rw [(procesarFila_eq_none_iff now row).2 hb] at h
    exact absurd h (by simp)
  | some nm =>
    by_cases hnb : jsTrim nm = ""
    · have hb : blankName row = true := by simp [blankName, h0, hnb]
      rw [(procesarFila_eq_none_iff now row).2 hb] at h
      exact absurd h (by simp)
    · rw [procesarFila_some_eq now row nm h0 hnb] at h
      refine ⟨nm, rfl, hnb, ?_⟩
      cases h
      exact ⟨rfl, rfl, rfl, rfl, rfl, rfl, rfl, rfl⟩

theorem procesarProductos_some_eq (now : String) (l : List (List String)) :
    procesarProductos now (some l) = (l.drop 1).filterMap (procesarFila now) := by
  simp only [procesarProductos]
  split
  · rename_i hlen
    have hd : l.drop 1 = [] := by
      rw [← List.length_eq_zero, List.length_drop]
      omega
    rw [hd]
    rfl
  · rw [List.filterMap_map]
    rfl

theorem mem_procesarProductos (now : String) (raw : Option (List (List String)))
    (p : Producto) (hp : p ∈ procesarProductos now raw) :
    ∃ row ∈ (raw.getD []).drop 1, procesarFila now row = some p := by
  cases raw with
  | none => simp [procesarProductos] at hp
  | some l =>
    rw [procesarProductos_some_eq] at hp
    rw [List.mem_filterMap] at hp
    exact hp

theorem matchDate_fst_ne_nil (l : List Char) (d r : List Char)
    (h : matchDate l = some (d, r)) : d ≠ [] := by
  unfold matchDate at h
  split at h
  · split at h
    · injection h with h
      injection h with h1 h2
      rw [← h1]
      simp
    · exact absurd h (by simp)
  · exact absurd h (by simp)

theorem matchVigAt_some_ne (l : List Char) (s e : String)
    (h : matchVigAt l = some (s, e)) : s ≠ "" ∧ e ≠ "" := by
  simp only [matchVigAt, bind, Option.bind_eq_some, pure, Prod.exists] at h
  obtain ⟨l1, _, l2, _, d1, l3, hd1, l4, _, l5, _, l6, _, d2, l7, hd2, hpure⟩ := h
  injection hpure with hpure
  injection hpure with hs he
  have h1 := matchDate_fst_ne_nil _ _ _ hd1
  have h2 := matchDate_fst_ne_nil _ _ _ hd2
  constructor
  · rw [← hs]
    intro hc
    apply h1
    have hd := congrArg String.data hc
    simpa using hd
  · rw [← he]
    intro hc
    apply h2
    have hd := congrArg String.data hc
    simpa using hd

theorem scanVig_some_ne (l : List Char) (s e : String)
    (h : scanVig l = some (s, e)) : s ≠ "" ∧ e ≠ "" := by
  induction l with
  | nil => simp [scanVig] at h
  | cons c rest ih =>
    rw [scanVig] at h
    split at h
    · rename_i r hr
      injection h with h
      subst h
      exact matchVigAt_some_ne _ _ _ hr
    · exact ih h

theorem matchVigencia_some_ne (v s e : String)
    (h : matchVigencia v = some (s, e)) : s ≠ "" ∧ e ≠ "" :=
  scanVig_some_ne v.data s e h

theorem mem_collapseWsAux (b : Bool) (l : List Char) (c : Char)
    (h : c ∈ collapseWsAux b l) : c = '-' ∨ (c ∈ l ∧ isJsWs c = false) := by
  induction l generalizing b with
  | nil => simp [collapseWsAux] at h
  | cons x xs ih =>
    rw [collapseWsAux] at h
    split at h
    · rename_i hx
      rw [List.mem_append] at h
      rcases h with h | h
      · cases b with
        | true => simp at h
        | false =>
          left
          simpa using h
      · rcases ih true h with h' | ⟨hmem, hws⟩
        · exact Or.inl h'
        · exact Or.inr ⟨List.mem_cons_of_mem x hmem, hws⟩
    · rename_i hx
      rcases List.mem_cons.mp h with h' | h'
      · subst h'
        exact Or.inr ⟨List.mem_cons_self _ _, Bool.of_not_eq_true hx⟩
      · rcases ih false h' with h'' | ⟨hmem, hws⟩
        · exact Or.inl h''
        · exact Or.inr ⟨List.mem_cons_of_mem x hmem, hws⟩

theorem length_filter_partition {α : Type} (f : α → Bool) (l : List α) :
    (l.filter fun a => !(f a)).length + (l.filter f).length = l.length := by
  induction l with
  | nil => rfl
  | cons x xs ih =>
    by_cases hx : f x
    · simp [List.filter, hx, ← ih]
      omega
    · simp only [Bool.not_eq_true] at hx
      simp [List.filter, hx, ← ih]
      omega

theorem find?_some_first {α : Type} (f : α → Bool) :
    ∀ (l : List α) (a : α), l.find? f = some a →
      f a = true ∧ ∃ l1 l2, l = l1 ++ a :: l2 ∧ ∀ x ∈ l1, f x = false
  | [], a, h => by simp [List.find?] at h
  | x :: xs, a, h => by
    rw [List.find?] at h
    split at h
    · rename_i hx
      injection h with h
      subst h
      exact ⟨hx, [], xs, rfl, by simp⟩
    · rename_i hx
      obtain ⟨ha, l1, l2, hl, hl1⟩ := find?_some_first f xs a h
      refine ⟨ha, x :: l1, l2, by rw [hl]; rfl, ?_⟩
      intro y hy
      rcases List.mem_cons.mp hy with h' | h'
      · subst h'
        exact hx
      · exact hl1 y h'

/-- Characterization of `blankName`: the name cell is missing, or present and
blank after trimming. -/
theorem blankName_iff (row : List String) :
    blankName row = true ↔
      (row[0]? = none ∨ ∃ nm, row[0]? = some nm ∧ jsTrim nm = "") := by
  unfold blankName
  cases h0 : row[0]? with
  | none => simp
  | some nm =>
    simp only [beq_iff_eq]
    constructor
    · intro ht
      exact Or.inr ⟨nm, rfl, ht⟩
    · intro ht
      rcases ht with h | ⟨nm', hnm', ht⟩
      · exact absurd h (by simp)
      · injection hnm' with hnm'
        subst hnm'
        exact ht

/-- Scenario A raw table from the spec (§8). -/
def tablaA : Option (List (List String)) :=
  some [["Name", "Validity", "Min", "Img"],
        ["Widget A", "del 01/01/2024 al 31/01/2024", "$100", "img1.png"]]

/-- The single product normalized out of `tablaA` (timestamp fixed for the
concrete instantiations). -/
def productoWidgetA : Producto :=
  { nombre := "Widget A"
    vigenciaCompleta := "del 01/01/2024 al 31/01/2024"
    fechaInicio := "01/01/2024"
    fechaFin := "31/01/2024"
    compraMinima := "$100"
    imagen := "img1.png"
    id := "widget-a"
    fechaActualizacion := "2024-06-01T00:00:00.000Z" }

/-- C1: the claim `p.id = generateProductId p.nombre` for every product of one
normalization pass is FALSE: a name cell with surrounding whitespace is trimmed
into `nombre` but the id is generated from the untrimmed text, so the row
`" Widget A "` yields `nombre = "Widget A"` with `id = "-widget-a-"`, while
`generateProductId "Widget A" = "widget-a"`. -/
theorem C1_counterexample :
    ¬ (∀ p ∈ procesarProductos "2024-06-01T00:00:00.000Z"
        (some [["Name"], [" Widget A "]]),
        p.id = generateProductId p.nombre) := by decide

/-- C1 (amended): every normalized product's `id` equals `generateProductId`
applied to the raw, untrimmed text of its row's name cell, while `nombre`
stores the trimmed text; consequently `p.id = generateProductId p.nombre`
does hold whenever the raw name cell is already trimmed. -/
theorem C1_id_from_raw_name (now : String) (raw : Option (List (List String)))
    (p : Producto) (hp : p ∈ procesarProductos now raw) :
    ∃ nm : String, p.nombre = jsTrim nm ∧ p.id = generateProductId nm ∧
      (jsTrim nm = nm → p.id = generateProductId p.nombre) := by
  obtain ⟨row, _, hrow⟩ := mem_procesarProductos now raw p hp
  obtain ⟨nm, h0, hnb, hn, hid, _⟩ := procesarFila_fields now row p hrow
  refine ⟨nm, hn, hid, ?_⟩
  intro ht
  rw [hn, ht, hid]

/-- Witness for C1 (amended), instantiated on the Scenario A table. -/
theorem C1_id_from_raw_name_witness :
    ∃ nm : String, productoWidgetA.nombre = jsTrim nm ∧
      productoWidgetA.id = generateProductId nm ∧
      (jsTrim nm = nm → productoWidgetA.id = generateProductId productoWidgetA.nombre) :=
  C1_id_from_raw_name "2024-06-01T00:00:00.000Z" tablaA productoWidgetA (by decide)

/-- C2: for every normalized product, if the validity cell matches the
case-insensitive pattern `del DD/MM/YYYY al DD/MM/YYYY` then `fechaInicio` and
`fechaFin` are exactly the two captured date substrings and `vigenciaCompleta`
is the raw cell text verbatim; if the cell does not match or is missing, both
date fields are empty; hence the two date fields are always both empty or both
populated. -/
theorem C2_validity_extraction (now : String) (row : List String) (p : Producto)
    (h : procesarFila now row = some p) :
    (∀ v s e, row[1]? = some v → matchVigencia v = some (s, e) →
      p.fechaInicio = s ∧ p.fechaFin = e ∧ p.vigenciaCompleta = v) ∧
    (∀ v, row[1]? = some v → matchVigencia v = none →
      p.fechaInicio = "" ∧ p.fechaFin = "") ∧
    (row[1]? = none → p.fechaInicio = "" ∧ p.fechaFin = "") ∧
    (p.fechaInicio = "" ↔ p.fechaFin = "") := by
  obtain ⟨nm, h0, hnb, hn, hid, hvc, hfi, hff, hcm, him, hfa⟩ :=
    procesarFila_fields now row p h
  have main : ∀ v s e, row[1]? = some v → matchVigencia v = some (s, e) →
      p.fechaInicio = s ∧ p.fechaFin = e ∧ p.vigenciaCompleta = v := by
    intro v s e hv hm
    have hvne : v ≠ "" := by
      intro hveq
      subst hveq
      have hnone : matchVigencia "" = none := rfl
      rw [hnone] at hm
      exact absurd hm (by simp)
    rw [hv] at hvc hfi hff
    simp only [truthyCell, cellText, hvne, hm, beq_iff_eq, if_neg, if_true,
      Bool.not_eq_true, Option.map_some, Option.getD_some] at hvc hfi hff
    simp [hvne] at hvc hfi hff
    exact ⟨hfi, hff, hvc⟩
  have second : ∀ v, row[1]? = some v → matchVigencia v = none →
      p.fechaInicio = "" ∧ p.fechaFin = "" := by
    intro v hv hm
    rw [hv] at hfi hff
    by_cases hve : v = ""
    · subst hve
      simp [truthyCell] at hfi hff
      exact ⟨hfi, hff⟩
    · simp [truthyCell, cellText, hve, hm] at hfi hff
      exact ⟨hfi, hff⟩
  have third : row[1]? = none → p.fechaInicio = "" ∧ p.fechaFin = "" := by
    intro hv
    rw [hv] at hfi hff
    simp [truthyCell] at hfi hff
    exact ⟨hfi, hff⟩
  refine ⟨main, second, third, ?_⟩
  cases hv : row[1]? with
  | none =>
    obtain ⟨h1, h2⟩ := third hv
    rw [h1, h2]
  | some v =>
    cases hm : matchVigencia v with
    | none =>
      obtain ⟨h1, h2⟩ := second v hv hm
      rw [h1, h2]
    | some se =>
      obtain ⟨s, e⟩ := se
      obtain ⟨h1, h2, _⟩ := main v s e hv hm
      obtain ⟨hs, he⟩ := matchVigencia_some_ne v s e hm
      rw [h1, h2]
      constructor
      · intro hc
        exact absurd hc hs
      · intro hc
        exact absurd hc he

/-- Witness for C2 on the Scenario A row: the matching validity cell yields
exactly the two captured dates and the verbatim text. -/
theorem C2_validity_extraction_witness :
    productoWidgetA.fechaInicio = "01/01/2024" ∧
    productoWidgetA.fechaFin = "31/01/2024" ∧
    productoWidgetA.vigenciaCompleta = "del 01/01/2024 al 31/01/2024" :=
  (C2_validity_extraction "2024-06-01T00:00:00.000Z"
      ["Widget A", "del 01/01/2024 al 31/01/2024", "$100", "img1.png"]
      productoWidgetA (by decide)).1
    "del 01/01/2024 al 31/01/2024" "01/01/2024" "31/01/2024"
    (by decide) (by decide)

/-- C3: an absent table or a table with at most one row normalizes to the
empty list; otherwise the header row is discarded and the output is exactly
the per-row results of the surviving rows in order (one product per row with
a present, non-blank-after-trimming name cell, whose `nombre` is the trimmed
cell text; blank-name rows are dropped without error). -/
theorem C3_row_selection :
    (∀ now, procesarProductos now none = []) ∧
    (∀ now l, l.length ≤ 1 → procesarProductos now (some l) = []) ∧
    (∀ now l, procesarProductos now (some l) =
      (l.drop 1).filterMap (procesarFila now)) ∧
    (∀ now row, procesarFila now row = none ↔
      (row[0]? = none ∨ ∃ nm, row[0]? = some nm ∧ jsTrim nm = "")) ∧
    (∀ now row p, procesarFila now row = some p →
      ∃ nm, row[0]? = some nm ∧ jsTrim nm ≠ "" ∧ p.nombre = jsTrim nm) := by
  refine ⟨fun now => rfl, ?_, ?_, ?_, ?_⟩
  · intro now l hl
    simp only [procesarProductos]
    rw [if_pos hl]
  · intro now l
    exact procesarProductos_some_eq now l
  · intro now row
    rw [procesarFila_eq_none_iff]
    exact blankName_iff row
  · intro now row p h
    obtain ⟨nm, h0, hnb, hn, _⟩ := procesarFila_fields now row p h
    exact ⟨nm, h0, hnb, hn⟩

/-- Witness for C3 at concrete tables and rows. -/
theorem C3_row_selection_witness :
    procesarProductos "t" none = [] ∧
    procesarProductos "t" (some [["Name", "Validity", "Min", "Img"]]) = [] ∧
    procesarProductos "t" (some [["Name"], ["  "], ["Gadget B"]]) =
      (([["Name"], ["  "], ["Gadget B"]] : List (List String)).drop 1).filterMap
        (procesarFila "t") ∧
    (procesarFila "t" ["   ", "v"] = none ↔
      ((["   ", "v"] : List String)[0]? = none ∨
        ∃ nm, (["   ", "v"] : List String)[0]? = some nm ∧ jsTrim nm = "")) ∧
    ∃ nm, ((["Gadget B", "texto libre"] : List String))[0]? = some nm ∧
      jsTrim nm ≠ "" ∧
      (Producto.mk "Gadget B" "texto libre" "" "" "" "" "gadget-b" "t").nombre = jsTrim nm :=
  ⟨C3_row_selection.1 "t",
   C3_row_selection.2.1 "t" [["Name", "Validity", "Min", "Img"]] (by decide),
   C3_row_selection.2.2.1 "t" [["Name"], ["  "], ["Gadget B"]],
   C3_row_selection.2.2.2.1 "t" ["   ", "v"],
   C3_row_selection.2.2.2.2 "t" ["Gadget B", "texto libre"]
     (Producto.mk "Gadget B" "texto libre" "" "" "" "" "gadget-b" "t") (by decide)⟩

/-- C4: `validateProducto p` is valid exactly when all three required fields
(name, image, minPurchase) are non-empty; its error list is exactly the fixed
reason string of each empty field, checked independently in the fixed order
name, image, minPurchase. -/
theorem C4_validate (p : Producto) :
    ((validateProducto p).isValid = true ↔
      p.nombre ≠ "" ∧ p.imagen ≠ "" ∧ p.compraMinima ≠ "") ∧
    (validateProducto p).errors =
      (if p.nombre = "" then ["Nombre requerido"] else []) ++
      (if p.imagen = "" then ["Imagen requerida"] else []) ++
      (if p.compraMinima = "" then ["Compra mínima requerida"] else []) ∧
    ((validateProducto p).isValid = true ↔ (validateProducto p).errors = []) := by
  unfold validateProducto
  by_cases h1 : p.nombre = "" <;> by_cases h2 : p.imagen = "" <;>
    by_cases h3 : p.compraMinima = "" <;> simp [h1, h2, h3]

/-- Witness for C4 at the Scenario C product (missing image and minPurchase). -/
theorem C4_validate_witness :
    ((validateProducto (Producto.mk "Gadget B" "texto libre" "" "" "" "" "gadget-b" "t")).isValid = true ↔
      (Producto.mk "Gadget B" "texto libre" "" "" "" "" "gadget-b" "t").nombre ≠ "" ∧
      (Producto.mk "Gadget B" "texto libre" "" "" "" "" "gadget-b" "t").imagen ≠ "" ∧
      (Producto.mk "Gadget B" "texto libre" "" "" "" "" "gadget-b" "t").compraMinima ≠ "") ∧
    (validateProducto (Producto.mk "Gadget B" "texto libre" "" "" "" "" "gadget-b" "t")).errors =
      (if (Producto.mk "Gadget B" "texto libre" "" "" "" "" "gadget-b" "t").nombre = ""
        then ["Nombre requerido"] else []) ++
      (if (Producto.mk "Gadget B" "texto libre" "" "" "" "" "gadget-b" "t").imagen = ""
        then ["Imagen requerida"] else []) ++
      (if (Producto.mk "Gadget B" "texto libre" "" "" "" "" "gadget-b" "t").compraMinima = ""
        then ["Compra mínima requerida"] else []) ∧
    ((validateProducto (Producto.mk "Gadget B" "texto libre" "" "" "" "" "gadget-b" "t")).isValid = true ↔
      (validateProducto (Producto.mk "Gadget B" "texto libre" "" "" "" "" "gadget-b" "t")).errors = []) :=
  C4_validate (Producto.mk "Gadget B" "texto libre" "" "" "" "" "gadget-b" "t")

/-- C5: the statistics counts satisfy `conImagen + sinImagen = totalProductos`
(the image counts partition the collection), `productosActivos = totalProductos`,
`totalProductos` is the length of the input, and `conVigencia` counts the
products with non-empty `vigenciaCompleta`. -/
theorem C5_stats (ps : List Producto) :
    (summarize ps).conImagen + (summarize ps).sinImagen = (summarize ps).totalProductos ∧
    (summarize ps).productosActivos = (summarize ps).totalProductos ∧
    (summarize ps).totalProductos = ps.length ∧
    (summarize ps).conVigencia = ps.countP fun p => decide (p.vigenciaCompleta ≠ "") := by
  refine ⟨?_, rfl, rfl, ?_⟩
  · exact length_filter_partition (fun p => p.imagen == "") ps
  · rw [List.countP_eq_length_filter]
    show (ps.filter fun p => !(p.vigenciaCompleta == "")).length = _
    congr 1
    apply List.filter_congr
    intro q _
    by_cases hq : q.vigenciaCompleta = "" <;> simp [hq]

/-- Witness for C5 at the Scenario A collection. -/
theorem C5_stats_witness :
    (summarize [productoWidgetA]).conImagen + (summarize [productoWidgetA]).sinImagen =
      (summarize [productoWidgetA]).totalProductos ∧
    (summarize [productoWidgetA]).productosActivos = (summarize [productoWidgetA]).totalProductos ∧
    (summarize [productoWidgetA]).totalProductos = [productoWidgetA].length ∧
    (summarize [productoWidgetA]).conVigencia =
      [productoWidgetA].countP fun p => decide (p.vigenciaCompleta ≠ "") :=
  C5_stats [productoWidgetA]

/-- C6: `generateProductId` is deterministic, its output contains only
lowercase ASCII letters, digits, and hyphens, its length is at most 50, and
it is exactly the pipeline lower-case → strip non-`[a-z0-9\s]` → collapse
whitespace runs to `-` → truncate to 50. -/
theorem C6_generateId (s : String) :
    (∀ t : String, s = t → generateProductId s = generateProductId t) ∧
    (∀ c ∈ (generateProductId s).data,
      ('a' ≤ c ∧ c ≤ 'z') ∨ ('0' ≤ c ∧ c ≤ '9') ∨ c = '-') ∧
    (generateProductId s).length ≤ 50 ∧
    generateProductId s =
      String.mk ((collapseWs ((s.data.map Char.toLower).filter fun c =>
        ('a' ≤ c && c ≤ 'z') || isDigitC c || isJsWs c)).take 50) := by
  refine ⟨fun t ht => by rw [ht], ?_, ?_, rfl⟩
  · intro c hc
    have hc2 : c ∈ (collapseWs ((s.data.map Char.toLower).filter fun c =>
        ('a' ≤ c && c ≤ 'z') || isDigitC c || isJsWs c)).take 50 := hc
    have hc3 := List.take_subset 50 _ hc2
    rcases mem_collapseWsAux false _ c hc3 with h | ⟨hmem, hws⟩
    · exact Or.inr (Or.inr h)
    · have hkeep := List.of_mem_filter hmem
      simp only [isDigitC, Bool.or_eq_true, Bool.and_eq_true,
        decide_eq_true_eq] at hkeep
      rcases hkeep with (⟨ha, hb⟩ | hd) | hw
      · exact Or.inl ⟨ha, hb⟩
      · exact Or.inr (Or.inl hd)
      · rw [hws] at hw
        exact absurd hw (by simp)
  · show ((collapseWs ((s.data.map Char.toLower).filter fun c =>
      ('a' ≤ c && c ≤ 'z') || isDigitC c || isJsWs c)).take 50).length ≤ 50
    rw [List.length_take]
    exact Nat.min_le_left _ _

/-- Witness for C6 on a concrete name with punctuation and a digit run. -/
theorem C6_generateId_witness :
    generateProductId "Café 2024!" = generateProductId "Café 2024!" ∧
    (('a' ≤ 'c' ∧ 'c' ≤ 'z') ∨ ('0' ≤ 'c' ∧ 'c' ≤ '9') ∨ 'c' = '-') ∧
    (generateProductId "Café 2024!").length ≤ 50 :=
  ⟨(C6_generateId "Café 2024!").1 "Café 2024!" rfl,
   (C6_generateId "Café 2024!").2.1 'c' (by decide),
   (C6_generateId "Café 2024!").2.2.1⟩

/-- C7: totality of the core on raw tables.  An absent table yields the empty
collection, the output never has more products than there are data rows, a row
with a present non-blank name always yields a product regardless of the other
cells (malformed cells degrade to empty fields rather than aborting), and the
only rows that produce nothing are those with a missing or blank name. -/
theorem C7_totality :
    (∀ now, procesarProductos now none = []) ∧
    (∀ now raw, (procesarProductos now (some raw)).length ≤ (raw.drop 1).length) ∧
    (∀ now row nm, row[0]? = some nm → jsTrim nm ≠ "" →
      ∃ p, procesarFila now row = some p) ∧
    (∀ now row, procesarFila now row = none →
      (row[0]? = none ∨ ∃ nm, row[0]? = some nm ∧ jsTrim nm = "")) := by
  refine ⟨fun now => rfl, ?_, ?_, ?_⟩
  · intro now raw
    rw [procesarProductos_some_eq]
    exact List.length_filterMap_le _ _
  · intro now row nm h0 hnb
    exact ⟨_, procesarFila_some_eq now row nm h0 hnb⟩
  · intro now row h
    exact (blankName_iff row).mp ((procesarFila_eq_none_iff now row).mp h)

/-- Witness for C7: a malformed-validity row still yields a product, and a
blank-name row is characterized as such. -/
theorem C7_totality_witness :
    procesarProductos "t" none = [] ∧
    (procesarProductos "t" (some [["h"], ["A"], [""]])).length ≤
      (([["h"], ["A"], [""]] : List (List String)).drop 1).length ∧
    (∃ p, procesarFila "t" ["Gadget B", "not a date", "", ""] = some p) ∧
    (((["  "] : List String))[0]? = none ∨
      ∃ nm, ((["  "] : List String))[0]? = some nm ∧ jsTrim nm = "") :=
  ⟨C7_totality.1 "t",
   C7_totality.2.1 "t" [["h"], ["A"], [""]],
   C7_totality.2.2.1 "t" ["Gadget B", "not a date", "", ""] "Gadget B"
     (by decide) (by decide),
   C7_totality.2.2.2 "t" ["  "] (by decide)⟩

/-- C8: `findById` returns the first product (in surviving row order) whose id
equals the argument, and `none` (the distinguished not-found outcome) exactly
when no product's id matches; on the Scenario A collection, looking up
`generateProductId "Widget A"` returns the Widget A product and every other id
returns not-found. -/
theorem C8_findById :
    (∀ ps i p, findById ps i = some p →
      p.id = i ∧ ∃ l1 l2, ps = l1 ++ p :: l2 ∧ ∀ q ∈ l1, q.id ≠ i) ∧
    (∀ ps i, findById ps i = none ↔ ∀ p ∈ ps, p.id ≠ i) ∧
    (findById (procesarProductos "2024-06-01T00:00:00.000Z" tablaA)
      (generateProductId "Widget A") = some productoWidgetA) ∧
    (∀ i, i ≠ generateProductId "Widget A" →
      findById (procesarProductos "2024-06-01T00:00:00.000Z" tablaA) i = none) := by
  refine ⟨?_, ?_, by decide, ?_⟩
  · intro ps i p h
    obtain ⟨hp, l1, l2, hl, hl1⟩ := find?_some_first _ ps p h
    refine ⟨by simpa using hp, l1, l2, hl, ?_⟩
    intro q hq
    have hq' := hl1 q hq
    simpa using hq'
  · intro ps i
    simp [findById, List.find?_eq_none]
  · intro i hi
    have hps : procesarProductos "2024-06-01T00:00:00.000Z" tablaA =
        [productoWidgetA] := by decide
    have hwa : generateProductId "Widget A" = "widget-a" := by decide
    rw [hps]
    simp [findById, List.find?_eq_none, productoWidgetA]
    intro hc
    rw [hwa] at hi
    exact hi hc.symm

/-- Witness for C8: the first-match decomposition on the singleton collection
and a concrete not-found lookup. -/
theorem C8_findById_witness :
    (productoWidgetA.id = generateProductId "Widget A" ∧
      ∃ l1 l2, [productoWidgetA] = l1 ++ productoWidgetA :: l2 ∧
        ∀ q ∈ l1, q.id ≠ generateProductId "Widget A") ∧
    findById (procesarProductos "2024-06-01T00:00:00.000Z" tablaA) "otro-id" = none :=
  ⟨C8_findById.1 [productoWidgetA] (generateProductId "Widget A") productoWidgetA
      (by decide),
   C8_findById.2.2.2 "otro-id" (by decide)⟩

/-- C9: a product produced by normalization never carries the name-required
validation error, because rows whose name trims to empty are dropped before a
product is built. -/
theorem C9_no_name_error (now : String) (raw : Option (List (List String)))
    (p : Producto) (hp : p ∈ procesarProductos now raw) :
    "Nombre requerido" ∉ (validateProducto p).errors := by
  obtain ⟨row, _, hrow⟩ := mem_procesarProductos now raw p hp
  obtain ⟨nm, h0, hnb, hn, _⟩ := procesarFila_fields now row p hrow
  have hne : p.nombre ≠ "" := by
    rw [hn]
    exact hnb
  intro hmem
  have hb : (p.nombre == "") = false := by simpa using hne
  simp [validateProducto, hb] at hmem

/-- Witness for C9 at the Scenario A product. -/
theorem C9_no_name_error_witness :
    "Nombre requerido" ∉ (validateProducto productoWidgetA).errors :=
  C9_no_name_error "2024-06-01T00:00:00.000Z" tablaA productoWidgetA (by decide)

/-- C10: whitespace-only cells are treated asymmetrically: a whitespace-only
minPurchase cell is stored unchanged (untrimmed) and counts as present for the
validator (no minPurchase error), while a whitespace-only image cell is trimmed
to the empty string and draws the image-required error. -/
theorem C10_ws_asymmetry (now : String) (row : List String) (p : Producto)
    (w x : String)
    (h : procesarFila now row = some p)
    (hmin : row[2]? = some w) (hw : w ≠ "") (_hwt : jsTrim w = "")
    (himg : row[3]? = some x) (hx : x ≠ "") (hxt : jsTrim x = "") :
    p.compraMinima = w ∧
    "Compra mínima requerida" ∉ (validateProducto p).errors ∧
    p.imagen = "" ∧
    "Imagen requerida" ∈ (validateProducto p).errors := by
  obtain ⟨nm, h0, hnb, hn, hid, hvc, hfi, hff, hcm, him, hfa⟩ :=
    procesarFila_fields now row p h
  rw [hmin] at hcm
  rw [himg] at him
  have hcm' : p.compraMinima = w := by
    simpa [truthyCell, cellText, hw] using hcm
  have him' : p.imagen = "" := by
    rw [him, if_pos (show truthyCell (some x) = true by simp [truthyCell, hx])]
    simpa [cellText] using hxt
  refine ⟨hcm', ?_, him', ?_⟩
  · intro hmem
    have hb : (p.compraMinima == "") = false := by simp [hcm', hw]
    simp [validateProducto, hb] at hmem
  · have hbi : (p.imagen == "") = true := by simp [him']
    simp [validateProducto, hbi]

/-- Witness for C10 on the row `["Widget", "", " ", " "]`: minPurchase keeps
the raw space and validates as present; the image trims to empty and draws
the error. -/
theorem C10_ws_asymmetry_witness :
    (Producto.mk "Widget" "" "" "" " " "" "widget" "t").compraMinima = " " ∧
    "Compra mínima requerida" ∉
      (validateProducto (Producto.mk "Widget" "" "" "" " " "" "widget" "t")).errors ∧
    (Producto.mk "Widget" "" "" "" " " "" "widget" "t").imagen = "" ∧
    "Imagen requerida" ∈
      (validateProducto (Producto.mk "Widget" "" "" "" " " "" "widget" "t")).errors :=
  C10_ws_asymmetry "t" ["Widget", "", " ", " "]
    (Producto.mk "Widget" "" "" "" " " "" "widget" "t") " " " "
    (by decide) (by decide) (by decide) (by decide) (by decide) (by decide) (by decide)
